import Mathlib

/-!
Verification of the Model Resolution and Token Allocation Engine of the
zen-mcp-server repository.

The definitions below are a shallow embedding of the Python source:

* `utils/model_restrictions.py` — the `ModelRestrictionService` class
  (restriction table construction in production and test mode, the
  `is_allowed` check, startup validation, and the restriction summary).
* The model resolver (`utils/model_context.py`) and the token allocator
  (`calculate_token_allocation`, `_validate_token_limit`,
  `estimate_tokens`) are not part of the source excerpt; they are
  modelled from the specification and from the behaviour their test
  files encode, and each such definition says so in its doc comment.

A Python `dict` keyed by provider type is embedded as an association
list with unique keys (first match wins, which coincides with the dict
because construction never inserts a key twice); a Python `set` of
strings is embedded as a duplicate-free list with membership tests.
-/

namespace ZenMCP

/-- Enumeration of the supported provider kinds, mirroring
`providers.base.ProviderType` as used by `utils/model_restrictions.py`. -/
inductive ProviderType where
  | OPENAI
  | GOOGLE
  | XAI
  | OPENROUTER
  | DIAL
  | CUSTOM
deriving DecidableEq, Repr

/-- Lower-case wire value of each provider kind (the `.value` attribute of
the Python enumeration), as used for summary keys and log text. -/
def ProviderType.value : ProviderType → String
  | .OPENAI => "openai"
  | .GOOGLE => "google"
  | .XAI => "xai"
  | .OPENROUTER => "openrouter"
  | .DIAL => "dial"
  | .CUSTOM => "custom"

/-- The `ENV_VARS` class attribute of `ModelRestrictionService`: the
per-provider environment variable names, in declaration order. There is
no entry for the `CUSTOM` provider type. -/
def ENV_VARS : List (ProviderType × String) :=
  [(ProviderType.OPENAI, "OPENAI_ALLOWED_MODELS"),
   (ProviderType.GOOGLE, "GOOGLE_ALLOWED_MODELS"),
   (ProviderType.XAI, "XAI_ALLOWED_MODELS"),
   (ProviderType.OPENROUTER, "OPENROUTER_ALLOWED_MODELS"),
   (ProviderType.DIAL, "DIAL_ALLOWED_MODELS")]

/-- Environment variable name governing a provider type, if any
(lookup into `ENV_VARS`). -/
def envVar : ProviderType → Option String
  | .OPENAI => some "OPENAI_ALLOWED_MODELS"
  | .GOOGLE => some "GOOGLE_ALLOWED_MODELS"
  | .XAI => some "XAI_ALLOWED_MODELS"
  | .OPENROUTER => some "OPENROUTER_ALLOWED_MODELS"
  | .DIAL => some "DIAL_ALLOWED_MODELS"
  | .CUSTOM => none

/-- Embedding of the Python method `str.lower` for the ASCII identifiers
this system handles: lower-case every character. -/
def pyLower (s : String) : String :=
  String.mk (s.data.map Char.toLower)

/-- Embedding of the Python method `str.strip` for the identifiers this
system handles: drop leading and trailing whitespace. -/
def pyStrip (s : String) : String :=
  String.mk (((s.data.dropWhile Char.isWhitespace).reverse.dropWhile
    Char.isWhitespace).reverse)

/-- Character-level splitting on commas, mirroring the Python method
`str.split` with a one-character separator: an empty input yields one
empty piece, and each comma ends the current piece. -/
def splitCommaChars : List Char → List (List Char)
  | [] => [[]]
  | c :: cs =>
      if c = ',' then [] :: splitCommaChars cs
      else
        match splitCommaChars cs with
        | [] => [[c]]
        | piece :: rest => (c :: piece) :: rest

/-- Embedding of the Python expression `env_value.split(",")`. -/
def pySplitComma (s : String) : List String :=
  (splitCommaChars s.data).map String.mk

/-- Boolean lexicographic comparison of character lists by code point,
mirroring how Python compares strings when sorting. -/
def charsLe : List Char → List Char → Bool
  | [], _ => true
  | _ :: _, [] => false
  | a :: as, b :: bs =>
      if a.toNat < b.toNat then true
      else if b.toNat < a.toNat then false
      else charsLe as bs

/-- Boolean lexicographic string comparison by code point. -/
def strLe (s t : String) : Bool :=
  charsLe s.data t.data

/-- The restriction table `self.restrictions`: a provider-keyed mapping to
allow-lists, embedded as an association list with unique keys. -/
abbrev Restrictions := List (ProviderType × List String)

/-- Dictionary lookup `self.restrictions.get(provider_type)`: first entry
with the given key, if any (construction never repeats a key, so first
match and dictionary lookup agree). -/
def findEntry : Restrictions → ProviderType → Option (List String)
  | [], _ => none
  | (p, l) :: rest, pt => if p = pt then some l else findEntry rest pt

/-- Python set insertion `models.add(x)`: append unless already present. -/
def setAdd (s : List String) (x : String) : List String :=
  if x ∈ s then s else s ++ [x]

/-- The per-element cleaning `model.strip().lower()` of `_load_from_env`. -/
def cleanName (m : String) : String :=
  pyLower (pyStrip m)

/-- Body of `_load_from_env` that parses one comma-separated environment
value: split on commas, trim and lower-case each element, and collect the
non-empty results into a set. -/
def parseAllowedModels (envValue : String) : List String :=
  (pySplitComma envValue).foldl
    (fun acc m =>
      let cleaned := cleanName m
      if cleaned = "" then acc else setAdd acc cleaned)
    []

/-- Per-variable step of `_load_from_env`: an unset or empty variable, or
one whose parse yields no models, produces no entry; otherwise the parsed
set becomes the entry. -/
def loadEntry (envValue : Option String) : Option (List String) :=
  match envValue with
  | none => none
  | some v =>
      if v = "" then none
      else
        let models := parseAllowedModels v
        if models = [] then none else some models

/-- The `_load_from_env` method: iterate `ENV_VARS` in order and install an
entry for each provider whose variable parses to a non-empty model set.
The environment is abstracted as an optional-valued map from variable
names to values (`os.getenv`). -/
def loadFromEnv (env : String → Option String) : Restrictions :=
  ENV_VARS.filterMap fun e => (loadEntry (env e.2)).map fun models => (e.1, models)

/-- The production branch of `ModelRestrictionService.__init__`: hardcoded
allow-lists for OpenAI, Google and OpenRouter, and empty (fully disabling)
entries for XAI, DIAL and CUSTOM. -/
def productionRestrictions : Restrictions :=
  [(ProviderType.OPENAI,
     ["gpt-5", "gpt5", "gpt-5-chat-latest",
      "o3",
      "o3-pro", "o3-pro-2025-06-10",
      "o3-deep-research", "o3-deep", "deep-research"]),
   (ProviderType.GOOGLE,
     ["gemini-2.5-pro", "pro"]),
   (ProviderType.OPENROUTER,
     ["openai/gpt-5", "openai/o3", "openai/o3-pro", "openai/o3-deep-research",
      "google/gemini-2.5-pro",
      "anthropic/claude-opus-4", "anthropic/claude-opus-4.1",
      "opus", "claude-opus"]),
   (ProviderType.XAI, []),
   (ProviderType.DIAL, []),
   (ProviderType.CUSTOM, [])]

/-- The `ModelRestrictionService.__init__` constructor: when the
`ZEN_MCP_TEST_MODE` variable equals the string true the table is loaded
from the environment, otherwise the hardcoded production table is used. -/
def serviceInit (env : String → Option String) : Restrictions :=
  if env "ZEN_MCP_TEST_MODE" = some "true" then loadFromEnv env
  else productionRestrictions

/-- Contribution of the optional original name to the set of names checked
by `is_allowed`: the lower-cased original is added when the original is a
truthy (non-empty) string whose lower-cased form differs from the
lower-cased resolved name. -/
def originalNames (model_name : String) : Option String → List String
  | some o =>
      if o ≠ "" ∧ pyLower o ≠ pyLower model_name then [pyLower o] else []
  | none => []

/-- The `is_allowed` method: a provider without an entry allows every
model; an empty entry allows none; otherwise the lower-cased resolved name
is checked against the entry, together with the lower-cased original name
when it is a non-empty string differing (lower-cased) from the resolved
name. -/
def is_allowed (rs : Restrictions) (pt : ProviderType) (model_name : String)
    (original_name : Option String) : Bool :=
  match findEntry rs pt with
  | none => true
  | some allowed =>
      if allowed.isEmpty then false
      else
        (pyLower model_name :: originalNames model_name original_name).any
          fun n => decide (n ∈ allowed)

/-- The `has_restrictions` method: whether the provider has an entry. -/
def has_restrictions (rs : Restrictions) (pt : ProviderType) : Bool :=
  (findEntry rs pt).isSome

/-- The `get_allowed_models` method: the entry itself, if any. -/
def get_allowed_models (rs : Restrictions) (pt : ProviderType) : Option (List String) :=
  findEntry rs pt

/-- The `filter_models` method: the list unchanged when the provider is
unrestricted, otherwise only the allowed members. -/
def filter_models (rs : Restrictions) (pt : ProviderType) (models : List String) : List String :=
  if has_restrictions rs pt = false then models
  else models.filter fun m => is_allowed rs pt m none

/-- Severity of a log emitted by `validate_against_known_models`. -/
inductive LogLevel where
  | warning
  | debug
deriving DecidableEq, Repr

/-- One per-model log emitted by `validate_against_known_models` for an
allow-list entry that matches no known model of its provider. -/
structure LogEntry where
  level : LogLevel
  provider : ProviderType
  model : String
deriving DecidableEq, Repr

/-- Outcome of calling `provider.list_all_known_models()`: either the list
of names, or a raised exception (carried as a message and caught by the
caller). -/
abbrev ModelListing := Except String (List String)

/-- Lower-cased supported-model set built by `validate_against_known_models`
from one listing; a raised exception is caught and treated as the empty
set. -/
def knownLower : ModelListing → List String
  | .error _ => []
  | .ok models => models.map (fun m => pyLower m)

/-- Logs produced by one iteration of the `validate_against_known_models`
loop: a provider without an instance or with an empty entry is skipped,
and otherwise every allowed model absent from the lower-cased known-model
list is logged, as a warning in test mode and as a debug note otherwise. -/
def validateEntry (providers : ProviderType → Option ModelListing)
    (testMode : Bool) : ProviderType × List String → List LogEntry
  | (q, allowed_models) =>
      match providers q with
      | none => []
      | some listing =>
          if allowed_models.isEmpty then []
          else
            let supported := knownLower listing
            allowed_models.filterMap fun m =>
              if m ∈ supported then none
              else some ⟨if testMode then .warning else .debug, q, m⟩

/-- The `validate_against_known_models` method, with its observable effect
(the per-model logs) as the return value. The restriction dictionary is
walked in order and each entry contributes its `validateEntry` logs; a
listing exception is caught inside `knownLower` (yielding an empty
supported set) rather than propagated. -/
def validate_against_known_models (rs : Restrictions)
    (providers : ProviderType → Option ModelListing) (testMode : Bool) :
    List LogEntry :=
  match rs with
  | [] => []
  | e :: rest =>
      validateEntry providers testMode e ++
        validate_against_known_models rest providers testMode

/-- Value stored in the summary dictionary returned by
`get_restriction_summary`: either a plain string or a sorted list of model
names. -/
inductive SummaryValue where
  | str (s : String)
  | strList (l : List String)
deriving DecidableEq, Repr

/-- Insertion into a lexicographically sorted list of strings. -/
def insertSorted (x : String) : List String → List String
  | [] => [x]
  | y :: ys => if strLe x y then x :: y :: ys else y :: insertSorted x ys

/-- The Python builtin `sorted` applied to a set of strings. -/
def sortStrings (l : List String) : List String :=
  l.foldr insertSorted []

/-- The exact `_note` text placed in every restriction summary. -/
def summaryNote : String :=
  "Restrictions are HARDCODED - environment variables are ignored"

/-- The `get_restriction_summary` method: a dictionary opening with the
`_note` key, followed by one key per restricted provider holding either
its sorted allow-list or the disabled marker string when the entry is
empty. -/
def get_restriction_summary (rs : Restrictions) : List (String × SummaryValue) :=
  ("_note", SummaryValue.str summaryNote) ::
    rs.map fun e =>
      (e.1.value,
       if e.2.isEmpty then SummaryValue.str "none (provider disabled)"
       else SummaryValue.strList (sortStrings e.2))

/-- Modelled from the spec: the static capability record of a resolved
model (`utils/model_context.py` is not part of the source excerpt); only
the context window size in tokens is relevant here. -/
structure Capabilities where
  context_window : Nat
deriving DecidableEq, Repr

/-- Modelled from the spec: the structured token budget returned by
`calculate_token_allocation` (`utils/model_context.py` is not part of the
source excerpt). -/
structure TokenAllocation where
  total_tokens : Nat
  content_tokens : Nat
  file_tokens : Nat
  history_tokens : Nat
  response_tokens : Nat
deriving DecidableEq, Repr

/-- Modelled from the spec: `calculate_token_allocation`
(`utils/model_context.py` is not part of the source excerpt). Every
category is a fixed percentage of the context window with all divisions
flooring to integers; per the tiers the token-limit tests encode, a window
below 300000 tokens uses a 60 percent content share with 30 percent of
content for files and 50 percent for history, while larger windows use an
80 percent content share with 40 percent for files and 40 percent for
history; the response share is the remainder of the window. -/
def calculate_token_allocation (window : Nat) : TokenAllocation :=
  if window < 300000 then
    let content := window * 6 / 10
    { total_tokens := window
      content_tokens := content
      file_tokens := content * 3 / 10
      history_tokens := content * 5 / 10
      response_tokens := window - content }
  else
    let content := window * 8 / 10
    { total_tokens := window
      content_tokens := content
      file_tokens := content * 4 / 10
      history_tokens := content * 4 / 10
      response_tokens := window - content }

/-- Modelled from the spec: the deterministic token-count heuristic
`estimate_tokens` (`utils/token_utils.py` is not part of the source
excerpt); the token-limit tests equate it with one token per four
characters, flooring. -/
def estimate_tokens (content : String) : Nat :=
  content.length / 4

/-- Descriptive text of the too-large rejection, naming both the estimate
and the limit. -/
def tooLargeMessage (estimated limit : Nat) : String :=
  "Content too large: estimated " ++ toString estimated ++
    " tokens exceeds limit of " ++ toString limit ++ " tokens"

/-- Modelled from the spec: `_validate_token_limit`
(`tools/shared/base_tool.py` is not part of the source excerpt); content
is rejected exactly when its estimated token count exceeds the floor of
80 percent of the resolved model context window, with a descriptive
too-large error naming the estimate and the limit. -/
def validate_token_limit (window : Nat) (content : String) : Except String Unit :=
  if estimate_tokens content > window * 8 / 10 then
    Except.error (tooLargeMessage (estimate_tokens content) (window * 8 / 10))
  else Except.ok ()

/-- Modelled from the spec: a registry answer for one identifier — the
owning provider type, the alias-resolved canonical name, and the
capability record. -/
structure ProviderHit where
  provider : ProviderType
  canonical : String
  caps : Capabilities
deriving DecidableEq, Repr

/-- Modelled from the spec: the result of model resolution
(`utils/model_context.py` is not part of the source excerpt); the fallback
warning is the empty string exactly when no substitution occurred. -/
structure ResolvedModel where
  requested : String
  actual_model_name : String
  provider : ProviderType
  fallback_warning : String
  capabilities : Capabilities
deriving DecidableEq, Repr

/-- Warning text recorded when the requested model is replaced by the
configured fallback; it names the original request and the replacement. -/
def fallbackWarningMessage (requested fallback : String) : String :=
  "Requested model " ++ requested ++ " is not available; falling back to " ++ fallback

/-- Hard-failure text reported when not even the fallback resolves. -/
def noModelAvailableMessage (requested : String) : String :=
  "No model available: " ++ requested ++ " could not be resolved and the fallback is unavailable"

/-- Modelled from the spec: the first resolution pass of the resolver
state machine of section 4.3 — registry lookup of the normalized
identifier followed by the restriction check against both the canonical
and the requested form; `none` means this pass failed. -/
def resolvePrimary (rs : Restrictions) (registry : String → Option ProviderHit)
    (req : String) : Option ProviderHit :=
  match registry req with
  | some hit =>
      if is_allowed rs hit.provider hit.canonical (some req) then some hit else none
  | none => none

/-- Modelled from the spec: the model resolver state machine of section
4.3 (`utils/model_context.py` is not part of the source excerpt). The
requested identifier is trimmed and lower-cased and looked up in the
registry; when no provider is found, or the restriction table rejects both
the canonical and the requested form, the configured fallback identifier
is substituted without a further restriction check and a warning is
recorded; when the fallback itself has no provider the resolution is a
hard no-model-available failure. -/
def resolve_model (rs : Restrictions) (registry : String → Option ProviderHit)
    (fallback : String) (requested : String) : Except String ResolvedModel :=
  match resolvePrimary rs registry (pyLower (pyStrip requested)) with
  | some hit =>
      Except.ok
        { requested := requested
          actual_model_name := hit.canonical
          provider := hit.provider
          fallback_warning := ""
          capabilities := hit.caps }
  | none =>
      match registry (pyLower (pyStrip fallback)) with
      | some hit =>
          Except.ok
            { requested := requested
              actual_model_name := fallback
              provider := hit.provider
              fallback_warning := fallbackWarningMessage requested fallback
              capabilities := hit.caps }
      | none => Except.error (noModelAvailableMessage requested)

/-! Concrete fixtures used to exercise the theorems on closed inputs. -/

/-- Environment with no variable set: the production construction path. -/
def envProduction : String → Option String := fun _ => none

/-- Environment that only switches the service into test mode. -/
def envTestMode : String → Option String :=
  fun s => if s = "ZEN_MCP_TEST_MODE" then some "true" else none

/-- Environment setting one allow-list variable with mixed casing, extra
whitespace and an empty element. -/
def envMixedCase : String → Option String :=
  fun s =>
    if s = "OPENAI_ALLOWED_MODELS" then some " O3-Mini , ,o4-mini " else none

/-- Registry able to serve only the identifier gpt-5. -/
def registryGpt5 : String → Option ProviderHit :=
  fun s =>
    if s = "gpt-5" then some ⟨ProviderType.OPENAI, "gpt-5", ⟨400000⟩⟩ else none

/-- Provider instances exposing only a Google listing with one known
model. -/
def providersKnownGoogle : ProviderType → Option ModelListing :=
  fun pt =>
    if pt = ProviderType.GOOGLE then some (Except.ok ["gemini-2.5-pro"]) else none

/-! Helper lemmas shared by the claim theorems. -/

/-- Membership in a set insertion. -/
theorem mem_setAdd {s : List String} {x y : String} :
    x ∈ setAdd s y ↔ x ∈ s ∨ x = y := by
  unfold setAdd
  split
  · rename_i hy
    constructor
    · exact Or.inl
    · rintro (hx | rfl)
      · exact hx
      · exact hy
  · simp [List.mem_append]

/-- Elements produced by the cleaning fold of `parseAllowedModels` either
come from the accumulator or are the non-empty trim-and-lower image of
some raw element. -/
theorem mem_parse_foldl (l : List String) (acc : List String) (x : String)
    (hx : x ∈ l.foldl
      (fun acc m =>
        let cleaned := cleanName m
        if cleaned = "" then acc else setAdd acc cleaned)
      acc) :
    x ∈ acc ∨ (x ≠ "" ∧ ∃ raw ∈ l, x = cleanName raw) := by
  induction l generalizing acc with
  | nil => simpa using hx
  | cons m rest ih =>
      rw [List.foldl_cons] at hx
      rcases ih _ hx with hstep | ⟨hne, raw, hraw, hval⟩
      · by_cases hc : cleanName m = ""
        · rw [if_pos hc] at hstep
          exact Or.inl hstep
        · rw [if_neg hc] at hstep
          rcases mem_setAdd.mp hstep with hacc | rfl
          · exact Or.inl hacc
          · exact Or.inr ⟨hc, m, List.mem_cons_self m rest, rfl⟩
      · exact Or.inr ⟨hne, raw, List.mem_cons_of_mem m hraw, hval⟩

/-- Every member of a parsed allow-list is non-empty and is the
trim-and-lower image of some raw comma-separated element. -/
theorem mem_parseAllowedModels {v x : String} (hx : x ∈ parseAllowedModels v) :
    x ≠ "" ∧ ∃ raw ∈ pySplitComma v, x = cleanName raw := by
  rcases mem_parse_foldl (pySplitComma v) [] x hx with h | h
  · simp at h
  · exact h

/-- A provider type absent from the keys of an association list has no
entry. -/
theorem findEntry_eq_none_of_not_mem {l : Restrictions} {pt : ProviderType}
    (h : pt ∉ l.map Prod.fst) : findEntry l pt = none := by
  induction l with
  | nil => rfl
  | cons e rest ih =>
      simp only [List.map_cons, List.mem_cons] at h
      push_neg at h
      unfold findEntry
      rw [if_neg (fun he => h.1 he.symm)]
      exact ih h.2

/-- Association lookup distributes over the keyed filterMap used by
`loadFromEnv`. -/
theorem findEntry_filterMap_cons (f : String → Option (List String))
    (p : ProviderType) (w : String) (l : List (ProviderType × String))
    (pt : ProviderType) :
    findEntry (((p, w) :: l).filterMap fun e => (f e.2).map fun m => (e.1, m)) pt =
      match f w with
      | some m => if p = pt then some m
                  else findEntry (l.filterMap fun e => (f e.2).map fun m => (e.1, m)) pt
      | none => findEntry (l.filterMap fun e => (f e.2).map fun m => (e.1, m)) pt := by
  cases hf : f w <;> simp [List.filterMap_cons, hf, findEntry]

/-- No key outside the iterated list gains an entry through the keyed
filterMap used by `loadFromEnv`. -/
theorem findEntry_filterMap_eq_none (f : String → Option (List String))
    (l : List (ProviderType × String)) (pt : ProviderType)
    (h : ∀ p v, (p, v) ∈ l → p ≠ pt) :
    findEntry (l.filterMap fun e => (f e.2).map fun m => (e.1, m)) pt = none := by
  induction l with
  | nil => rfl
  | cons e rest ih =>
      obtain ⟨p, w⟩ := e
      rw [findEntry_filterMap_cons]
      have hrest : findEntry (rest.filterMap fun e => (f e.2).map fun m => (e.1, m)) pt = none :=
        ih fun p v hv => h p v (List.mem_cons_of_mem _ hv)
      have hne : p ≠ pt := h p w (List.mem_cons_self _ _)
      cases hf : f w <;> simp [hne, hrest]

/-- In test mode the entry of a provider that has an environment variable
is exactly what `loadEntry` yields for that variable. -/
theorem findEntry_loadFromEnv (env : String → Option String) (pt : ProviderType)
    (var : String) (h : envVar pt = some var) :
    findEntry (loadFromEnv env) pt = loadEntry (env var) := by
  unfold loadFromEnv ENV_VARS
  cases pt <;> simp [envVar] at h <;> subst h <;>
    cases hA : loadEntry (env "OPENAI_ALLOWED_MODELS") <;>
    cases hB : loadEntry (env "GOOGLE_ALLOWED_MODELS") <;>
    cases hC : loadEntry (env "XAI_ALLOWED_MODELS") <;>
    cases hD : loadEntry (env "OPENROUTER_ALLOWED_MODELS") <;>
    cases hE : loadEntry (env "DIAL_ALLOWED_MODELS") <;>
    simp [List.filterMap_cons, hA, hB, hC, hD, hE, findEntry]

/-- The `CUSTOM` provider type never gains an entry in test mode. -/
theorem findEntry_loadFromEnv_custom (env : String → Option String) :
    findEntry (loadFromEnv env) ProviderType.CUSTOM = none := by
  unfold loadFromEnv
  refine findEntry_filterMap_eq_none (fun v => loadEntry (env v)) ENV_VARS
    ProviderType.CUSTOM ?_
  intro p v hv
  simp only [ENV_VARS, List.mem_cons, List.not_mem_nil, or_false] at hv
  rcases hv with h | h | h | h | h <;> rw [Prod.mk.injEq] at h <;>
    rcases h with ⟨rfl, -⟩ <;> simp

/-- A `loadEntry` result is never the empty list. -/
theorem loadEntry_ne_some_nil (envValue : Option String) :
    loadEntry envValue ≠ some [] := by
  cases envValue with
  | none => simp [loadEntry]
  | some v =>
      simp only [loadEntry]
      by_cases hv : v = ""
      · simp [hv]
      · rw [if_neg hv]
        by_cases hm : parseAllowedModels v = []
        · simp [hm]
        · simp [hm]

/-- Unfolding of `is_allowed` when the provider has an entry. -/
theorem is_allowed_of_findEntry_some {rs : Restrictions} {pt : ProviderType}
    {allowed : List String} (h : findEntry rs pt = some allowed)
    (m : String) (o : Option String) :
    is_allowed rs pt m o =
      if allowed.isEmpty then false
      else (pyLower m :: originalNames m o).any fun n => decide (n ∈ allowed) := by
  unfold is_allowed
  rw [h]

/-- Unfolding of `is_allowed` when the provider has no entry. -/
theorem is_allowed_of_findEntry_none {rs : Restrictions} {pt : ProviderType}
    (h : findEntry rs pt = none) (m : String) (o : Option String) :
    is_allowed rs pt m o = true := by
  unfold is_allowed
  rw [h]

/-- Entries created by `loadEntry` never contain the empty string. -/
theorem loadEntry_no_empty {x : Option String} {l : List String}
    (h : loadEntry x = some l) : "" ∉ l := by
  cases x with
  | none => exact Option.noConfusion h
  | some v =>
      simp only [loadEntry] at h
      by_cases hv : v = ""
      · rw [if_pos hv] at h; exact Option.noConfusion h
      · rw [if_neg hv] at h
        by_cases hm : parseAllowedModels v = []
        · rw [if_pos hm] at h; exact Option.noConfusion h
        · rw [if_neg hm] at h
          injection h with h
          subst h
          intro hmem
          exact (mem_parseAllowedModels hmem).1 rfl

/-- Every entry reachable through the keyed filterMap of `loadFromEnv`
comes from some `loadEntry` value. -/
theorem findEntry_filterMap_some (f : String → Option (List String))
    (l : List (ProviderType × String)) (pt : ProviderType) (m : List String)
    (h : findEntry (l.filterMap fun e => (f e.2).map fun x => (e.1, x)) pt = some m) :
    ∃ w, f w = some m := by
  induction l with
  | nil => exact Option.noConfusion h
  | cons e rest ih =>
      obtain ⟨p, w⟩ := e
      rw [findEntry_filterMap_cons] at h
      cases hf : f w with
      | none =>
          simp only [hf] at h
          exact ih h
      | some mm =>
          simp only [hf] at h
          by_cases hpt : p = pt
          · rw [if_pos hpt] at h
            injection h with h
            exact ⟨w, by rw [hf, h]⟩
          · rw [if_neg hpt] at h
            exact ih h

/-- No entry of a constructed restriction table contains the empty
string, in either mode. -/
theorem serviceInit_entry_no_empty (env : String → Option String)
    (pt : ProviderType) (l : List String)
    (h : findEntry (serviceInit env) pt = some l) : "" ∉ l := by
  unfold serviceInit at h
  split at h
  · unfold loadFromEnv at h
    obtain ⟨w, hw⟩ :=
      findEntry_filterMap_some (fun v => loadEntry (env v)) ENV_VARS pt l h
    exact loadEntry_no_empty hw
  · cases pt <;> simp [productionRestrictions, findEntry] at h <;>
      subst h <;> decide

/-- Characterization of membership in one iteration of
`validate_against_known_models`. -/
theorem mem_validateEntry (providers : ProviderType → Option ModelListing)
    (tm : Bool) (q : ProviderType) (al : List String)
    (lvl : LogLevel) (pt : ProviderType) (m : String) :
    (⟨lvl, pt, m⟩ : LogEntry) ∈ validateEntry providers tm (q, al) ↔
      pt = q ∧ lvl = (if tm then LogLevel.warning else LogLevel.debug) ∧
        al ≠ [] ∧ ∃ listing, providers q = some listing ∧
          m ∈ al ∧ m ∉ knownLower listing := by
  cases hp : providers q with
  | none => simp [validateEntry, hp]
  | some listing =>
      by_cases hal : al = []
      · subst hal; simp [validateEntry, hp]
      · have hie : ¬ (al.isEmpty = true) := by
          cases al with
          | nil => exact absurd rfl hal
          | cons a as => simp
        simp only [validateEntry, hp]
        rw [if_neg hie]
        constructor
        · intro hx
          rcases List.mem_filterMap.mp hx with ⟨b, hb, hfb⟩
          by_cases hbs : b ∈ knownLower listing
          · rw [if_pos hbs] at hfb
            exact Option.noConfusion hfb
          · rw [if_neg hbs] at hfb
            injection hfb with hfb
            injection hfb with h1 h2 h3
            subst h2; subst h3
            exact ⟨rfl, h1.symm, hal, listing, rfl, hb, hbs⟩
        · rintro ⟨rfl, rfl, -, lst, hlst, hm, hnm⟩
          injection hlst with hlst
          subst hlst
          exact List.mem_filterMap.mpr ⟨m, hm, by rw [if_neg hnm]⟩

/-! Claim theorems. -/

/-- C3: for every provider whose restriction entry exists and is the
empty set, `is_allowed` returns false for every model name, and for every
provider with no entry in the table at all, `is_allowed` returns true for
every model name. -/
theorem is_allowed_empty_and_absent_entries (rs : Restrictions) (pt : ProviderType) :
    (findEntry rs pt = some [] →
        ∀ m o, is_allowed rs pt m o = false) ∧
      (findEntry rs pt = none →
        ∀ m o, is_allowed rs pt m o = true) := by
  constructor
  · intro h m o
    rw [is_allowed_of_findEntry_some h]
    rfl
  · intro h m o
    exact is_allowed_of_findEntry_none h m o

/-- Witness for C3 at concrete inputs: the disabled XAI entry of the
production table rejects grok-3, and the absent OpenAI entry of an empty
test-mode table allows o3. -/
theorem is_allowed_empty_and_absent_entries_witness :
    is_allowed productionRestrictions ProviderType.XAI "grok-3" none = false ∧
      is_allowed (loadFromEnv envProduction) ProviderType.OPENAI "o3" none = true := by
  constructor
  · exact (is_allowed_empty_and_absent_entries productionRestrictions
      ProviderType.XAI).1 (by decide) "grok-3" none
  · exact (is_allowed_empty_and_absent_entries (loadFromEnv envProduction)
      ProviderType.OPENAI).2 (by decide) "o3" none

/-- C2: for every provider whose restriction entry (in a constructed
service state) is non-empty, `is_allowed` returns true exactly when the
lower-cased resolved name or the lower-cased original name is a member of
the entry — so it rejects any model with neither name in the entry and
accepts every entry member regardless of input casing. -/
theorem is_allowed_nonempty_entry_iff (env : String → Option String)
    (pt : ProviderType) (allowed : List String)
    (hfind : findEntry (serviceInit env) pt = some allowed)
    (hne : allowed ≠ []) (m : String) (o : Option String) :
    is_allowed (serviceInit env) pt m o = true ↔
      (pyLower m ∈ allowed ∨ ∃ s, o = some s ∧ pyLower s ∈ allowed) := by
  have hemp : "" ∉ allowed := serviceInit_entry_no_empty env pt allowed hfind
  rw [is_allowed_of_findEntry_some hfind]
  have hie : ¬ (allowed.isEmpty = true) := by
    cases allowed with
    | nil => exact absurd rfl hne
    | cons a as => simp
  rw [if_neg hie]
  cases o with
  | none =>
      simp only [originalNames, List.any_cons, List.any_nil, Bool.or_false,
        decide_eq_true_eq]
      constructor
      · intro h
        exact Or.inl h
      · rintro (h | ⟨s, hs, -⟩)
        · exact h
        · exact Option.noConfusion hs
  | some s =>
      by_cases hs : s ≠ "" ∧ pyLower s ≠ pyLower m
      · simp only [originalNames, if_pos hs, List.any_cons, List.any_nil,
          Bool.or_false, Bool.or_eq_true, decide_eq_true_eq]
        constructor
        · rintro (h1 | h2)
          · exact Or.inl h1
          · exact Or.inr ⟨s, rfl, h2⟩
        · rintro (h1 | ⟨t, ht, h2⟩)
          · exact Or.inl h1
          · injection ht with ht
            subst ht
            exact Or.inr h2
      · simp only [originalNames, if_neg hs, List.any_cons, List.any_nil,
          Bool.or_false, decide_eq_true_eq]
        push_neg at hs
        constructor
        · intro h1
          exact Or.inl h1
        · rintro (h1 | ⟨t, ht, h2⟩)
          · exact h1
          · injection ht with ht
            subst ht
            by_cases ht0 : s = ""
            · subst ht0
              exfalso
              have hl : pyLower "" = "" := by decide
              rw [hl] at h2
              exact hemp h2
            · have heq := hs ht0
              rw [← heq]
              exact h2

/-- Witness for C2 at a concrete input: the upper-cased alias PRO is
allowed for Google because its lower-cased form is in the non-empty
production entry. -/
theorem is_allowed_nonempty_entry_iff_witness :
    is_allowed (serviceInit envProduction) ProviderType.GOOGLE "PRO" none = true :=
  (is_allowed_nonempty_entry_iff envProduction ProviderType.GOOGLE
      ["gemini-2.5-pro", "pro"] (by decide) (by decide) "PRO" none).mpr
    (Or.inl (by decide))

/-- C8: when the test-mode variable is not set to true, the constructor
installs empty restriction entries for the XAI, DIAL and CUSTOM provider
types, so `is_allowed` rejects every model for those three providers; the
constructed table is a value no other operation of the embedding mutates. -/
theorem production_disables_xai_dial_custom (env : String → Option String)
    (hprod : env "ZEN_MCP_TEST_MODE" ≠ some "true") (m : String) (o : Option String) :
    findEntry (serviceInit env) ProviderType.XAI = some [] ∧
      findEntry (serviceInit env) ProviderType.DIAL = some [] ∧
      findEntry (serviceInit env) ProviderType.CUSTOM = some [] ∧
      is_allowed (serviceInit env) ProviderType.XAI m o = false ∧
      is_allowed (serviceInit env) ProviderType.DIAL m o = false ∧
      is_allowed (serviceInit env) ProviderType.CUSTOM m o = false := by
  have hinit : serviceInit env = productionRestrictions := by
    unfold serviceInit
    rw [if_neg hprod]
  rw [hinit]
  refine ⟨by decide, by decide, by decide, ?_, ?_, ?_⟩
  · rw [is_allowed_of_findEntry_some
      (show findEntry productionRestrictions ProviderType.XAI = some [] by decide)]
    rfl
  · rw [is_allowed_of_findEntry_some
      (show findEntry productionRestrictions ProviderType.DIAL = some [] by decide)]
    rfl
  · rw [is_allowed_of_findEntry_some
      (show findEntry productionRestrictions ProviderType.CUSTOM = some [] by decide)]
    rfl

/-- Witness for C8 at a concrete input: with no environment variable set,
XAI rejects grok-3. -/
theorem production_disables_xai_dial_custom_witness :
    is_allowed (serviceInit envProduction) ProviderType.XAI "grok-3" none = false :=
  (production_disables_xai_dial_custom envProduction (by decide) "grok-3" none).2.2.2.1

/-- C10: the `ENV_VARS` mapping has no variable for the CUSTOM provider
type, so test-mode construction never creates a CUSTOM entry: CUSTOM has
no restrictions and every model is allowed — the opposite of production
mode. -/
theorem test_mode_custom_unrestricted (env : String → Option String)
    (htest : env "ZEN_MCP_TEST_MODE" = some "true") (m : String) (o : Option String) :
    (∀ v, (ProviderType.CUSTOM, v) ∉ ENV_VARS) ∧
      has_restrictions (serviceInit env) ProviderType.CUSTOM = false ∧
      is_allowed (serviceInit env) ProviderType.CUSTOM m o = true := by
  have hinit : serviceInit env = loadFromEnv env := by
    unfold serviceInit
    rw [if_pos htest]
  have hnone := findEntry_loadFromEnv_custom env
  refine ⟨?_, ?_, ?_⟩
  · intro v hv
    simp only [ENV_VARS, List.mem_cons, List.not_mem_nil, or_false] at hv
    rcases hv with h | h | h | h | h <;> rw [Prod.mk.injEq] at h <;>
      exact absurd h.1 (by decide)
  · rw [hinit]
    unfold has_restrictions
    rw [hnone]
    rfl
  · rw [hinit]
    exact is_allowed_of_findEntry_none hnone m o

/-- Witness for C10 at a concrete input: in test mode any model is
allowed for the CUSTOM provider type. -/
theorem test_mode_custom_unrestricted_witness :
    is_allowed (serviceInit envTestMode) ProviderType.CUSTOM "anything" none = true :=
  (test_mode_custom_unrestricted envTestMode (by decide) "anything" none).2.2

/-- C6: in test mode each provider entry is parsed from its
comma-separated environment string: an unset, empty, or whitespace-only
variable yields no entry (never an empty one), otherwise the entry is
exactly the parse result, whose members are the non-empty trimmed and
lower-cased comma-separated elements. -/
theorem load_from_env_parsing (env : String → Option String) (pt : ProviderType)
    (var : String) (hvar : envVar pt = some var) :
    (findEntry (loadFromEnv env) pt ≠ some []) ∧
      (env var = none → findEntry (loadFromEnv env) pt = none) ∧
      (env var = some "" → findEntry (loadFromEnv env) pt = none) ∧
      (∀ v, env var = some v → parseAllowedModels v = [] →
        findEntry (loadFromEnv env) pt = none) ∧
      (∀ v, env var = some v → parseAllowedModels v ≠ [] →
        findEntry (loadFromEnv env) pt = some (parseAllowedModels v)) ∧
      (∀ v x, x ∈ parseAllowedModels v →
        x ≠ "" ∧ ∃ raw ∈ pySplitComma v, x = cleanName raw) := by
  rw [findEntry_loadFromEnv env pt var hvar]
  refine ⟨loadEntry_ne_some_nil _, ?_, ?_, ?_, ?_,
    fun v x hx => mem_parseAllowedModels hx⟩
  · intro h
    simp [h, loadEntry]
  · intro h
    simp [h, loadEntry]
  · intro v h hp
    rw [h]
    by_cases hv : v = "" <;> simp [loadEntry, hv, hp]
  · intro v h hp
    rw [h]
    have hv : v ≠ "" := by
      intro h0
      subst h0
      exact hp (by decide)
    simp [loadEntry, hv, hp]

/-- Witness for C6 at a concrete input: a mixed-case, whitespace-laden
variable with an empty element parses to the cleaned two-model entry. -/
theorem load_from_env_parsing_witness :
    findEntry (loadFromEnv envMixedCase) ProviderType.OPENAI =
      some ["o3-mini", "o4-mini"] := by
  have h := (load_from_env_parsing envMixedCase ProviderType.OPENAI
    "OPENAI_ALLOWED_MODELS" rfl).2.2.2.2.1 " O3-Mini , ,o4-mini "
    (by decide) (by decide)
  rw [h]
  decide

/-- C9: the restriction summary always opens with the `_note` key stating
that restrictions are hardcoded and environment variables are ignored —
in every mode, the constructor argument being arbitrary — and maps each
restricted provider either to its sorted allow-list or to the disabled
marker string when its entry is empty. -/
theorem restriction_summary_note_and_entries (env : String → Option String) :
    (get_restriction_summary (serviceInit env)).head? =
        some ("_note", SummaryValue.str summaryNote) ∧
      ∀ pt allowed, (pt, allowed) ∈ serviceInit env →
        (pt.value,
          if allowed = [] then SummaryValue.str "none (provider disabled)"
          else SummaryValue.strList (sortStrings allowed)) ∈
          get_restriction_summary (serviceInit env) := by
  constructor
  · rfl
  · intro pt allowed hmem
    unfold get_restriction_summary
    refine List.mem_cons_of_mem _ ?_
    have hmap := List.mem_map_of_mem
      (fun e : ProviderType × List String =>
        (e.1.value,
         if e.2.isEmpty then SummaryValue.str "none (provider disabled)"
         else SummaryValue.strList (sortStrings e.2))) hmem
    by_cases h0 : allowed = []
    · subst h0
      rw [if_pos rfl]
      simpa using hmap
    · rw [if_neg h0]
      have hie : allowed.isEmpty = false := by
        cases allowed with
        | nil => exact absurd rfl h0
        | cons a as => rfl
      simpa [hie] using hmap

/-- Witness for C9 at a concrete input: the production summary carries the
disabled marker for the XAI provider. -/
theorem restriction_summary_note_and_entries_witness :
    ("xai", SummaryValue.str "none (provider disabled)") ∈
      get_restriction_summary (serviceInit envProduction) := by
  have h := (restriction_summary_note_and_entries envProduction).2
    ProviderType.XAI [] (by decide)
  simpa [ProviderType.value] using h

/-- C7: `validate_against_known_models` is total (it never propagates a
listing exception, which `knownLower` absorbs into an empty supported
set), and its logs are characterized exactly: a per-model log appears for
a provider and model precisely when the provider has an instance and a
non-empty entry containing that model while the lower-cased known-model
list does not, and the log level is warning in test mode and debug
otherwise; providers without an instance or with empty entries produce
nothing. -/
theorem validate_known_models_best_effort (rs : Restrictions)
    (providers : ProviderType → Option ModelListing) (tm : Bool)
    (hkeys : (rs.map Prod.fst).Nodup) (lvl : LogLevel) (pt : ProviderType)
    (m : String) :
    (⟨lvl, pt, m⟩ : LogEntry) ∈ validate_against_known_models rs providers tm ↔
      lvl = (if tm then LogLevel.warning else LogLevel.debug) ∧
        ∃ allowed listing, findEntry rs pt = some allowed ∧ allowed ≠ [] ∧
          providers pt = some listing ∧ m ∈ allowed ∧
          m ∉ knownLower listing := by
  induction rs with
  | nil => simp [validate_against_known_models, findEntry]
  | cons e rest ih =>
      obtain ⟨q, al⟩ := e
      rw [List.map_cons, List.nodup_cons] at hkeys
      obtain ⟨hq, hrest⟩ := hkeys
      simp only [validate_against_known_models, List.mem_append]
      rw [mem_validateEntry, ih hrest]
      by_cases hpt : pt = q
      · subst hpt
        have hnone : findEntry rest pt = none := findEntry_eq_none_of_not_mem hq
        have hcons : findEntry ((pt, al) :: rest) pt = some al := by
          simp [findEntry]
        rw [hcons, hnone]
        constructor
        · rintro (⟨-, h2, h3, listing, h4, h5, h6⟩ | ⟨-, allowed, listing, hcontra, -⟩)
          · exact ⟨h2, al, listing, rfl, h3, h4, h5, h6⟩
          · exact Option.noConfusion hcontra
        · rintro ⟨h2, allowed, listing, heq, h3, h4, h5, h6⟩
          injection heq with heq
          subst heq
          exact Or.inl ⟨rfl, h2, h3, listing, h4, h5, h6⟩
      · have hcons : findEntry ((q, al) :: rest) pt = findEntry rest pt := by
          simp only [findEntry]
          rw [if_neg fun hh => hpt hh.symm]
        rw [hcons]
        constructor
        · rintro (⟨hcontra, -⟩ | h)
          · exact absurd hcontra hpt
          · exact h
        · intro h
          exact Or.inr h

/-- Witness for C7 at a concrete input: in test mode the production
Google entry member pro, unknown to a provider listing only the canonical
gemini-2.5-pro, is flagged as a warning. -/
theorem validate_known_models_best_effort_witness :
    (⟨LogLevel.warning, ProviderType.GOOGLE, "pro"⟩ : LogEntry) ∈
      validate_against_known_models productionRestrictions providersKnownGoogle
        true := by
  refine (validate_known_models_best_effort productionRestrictions
    providersKnownGoogle true (by decide) LogLevel.warning ProviderType.GOOGLE
    "pro").mpr ?_
  refine ⟨rfl, ["gemini-2.5-pro", "pro"], Except.ok ["gemini-2.5-pro"],
    by decide, by decide, rfl, by decide, by decide⟩

/-- Arithmetic helper: three tenths plus five tenths of a quantity,
floored, stay within it. -/
theorem div10_sum_le_35 (c : Nat) : c * 3 / 10 + c * 5 / 10 ≤ c := by
  have h3 := Nat.div_mul_le_self (c * 3) 10
  have h5 := Nat.div_mul_le_self (c * 5) 10
  omega

/-- Arithmetic helper: four tenths plus four tenths of a quantity,
floored, stay within it. -/
theorem div10_sum_le_44 (c : Nat) : c * 4 / 10 + c * 4 / 10 ≤ c := by
  have h4 := Nat.div_mul_le_self (c * 4) 10
  omega

/-- Arithmetic helper: six tenths of a quantity, floored, stay within it. -/
theorem mul6_div10_le (w : Nat) : w * 6 / 10 ≤ w := by
  have h := Nat.div_mul_le_self (w * 6) 10
  omega

/-- Arithmetic helper: eight tenths of a quantity, floored, stay within
it. -/
theorem mul8_div10_le (w : Nat) : w * 8 / 10 ≤ w := by
  have h := Nat.div_mul_le_self (w * 8) 10
  omega

/-- C4: for every positive window the allocation keeps the window as its
total, its file and history budgets together stay within the content
budget, the content budget stays within the total, and a one million
token window receives strictly more file budget than a two hundred
thousand token window. -/
theorem token_allocation_proportional_bounds (w : Nat) (hw : 0 < w) :
    (calculate_token_allocation w).total_tokens = w ∧
      (calculate_token_allocation w).file_tokens +
          (calculate_token_allocation w).history_tokens ≤
        (calculate_token_allocation w).content_tokens ∧
      (calculate_token_allocation w).content_tokens ≤
        (calculate_token_allocation w).total_tokens ∧
      (calculate_token_allocation 1000000).file_tokens >
        (calculate_token_allocation 200000).file_tokens := by
  refine ⟨?_, ?_, ?_, by decide⟩
  · unfold calculate_token_allocation
    split <;> rfl
  · unfold calculate_token_allocation
    split
    · show w * 6 / 10 * 3 / 10 + w * 6 / 10 * 5 / 10 ≤ w * 6 / 10
      exact div10_sum_le_35 _
    · show w * 8 / 10 * 4 / 10 + w * 8 / 10 * 4 / 10 ≤ w * 8 / 10
      exact div10_sum_le_44 _
  · unfold calculate_token_allocation
    split
    · show w * 6 / 10 ≤ w
      exact mul6_div10_le w
    · show w * 8 / 10 ≤ w
      exact mul8_div10_le w

/-- Witness for C4 at a concrete input: a two hundred thousand token
window keeps its size as the allocation total. -/
theorem token_allocation_proportional_bounds_witness :
    (calculate_token_allocation 200000).total_tokens = 200000 :=
  (token_allocation_proportional_bounds 200000 (by decide)).1

/-- C5: content estimated under eighty percent of the window is accepted
and content estimated over it is rejected with the descriptive too-large
message naming both the estimate and the limit; the cutoff is computed
from the window, accepting a 75000-token estimate and rejecting a
900000-token estimate against the same one million token window. -/
theorem validate_token_limit_scales_with_window (window : Nat) (content : String) :
    (estimate_tokens content < window * 8 / 10 →
        validate_token_limit window content = Except.ok ()) ∧
      (estimate_tokens content > window * 8 / 10 →
        validate_token_limit window content =
          Except.error
            (tooLargeMessage (estimate_tokens content) (window * 8 / 10))) ∧
      (estimate_tokens content = 75000 →
        validate_token_limit 1000000 content = Except.ok ()) ∧
      (estimate_tokens content = 900000 →
        validate_token_limit 1000000 content =
          Except.error (tooLargeMessage 900000 800000)) := by
  refine ⟨?_, ?_, ?_, ?_⟩
  · intro h
    unfold validate_token_limit
    rw [if_neg (by omega)]
  · intro h
    unfold validate_token_limit
    rw [if_pos h]
  · intro h
    unfold validate_token_limit
    rw [h, if_neg (by decide)]
  · intro h
    unfold validate_token_limit
    rw [h, if_pos (by decide)]

/-- Unfolding equation of the token estimate, usable on abstract content
without forcing evaluation of the length. -/
theorem estimate_tokens_eq (s : String) : estimate_tokens s = s.length / 4 := rfl

/-- Witness for C5 at concrete inputs: a four-character content passes a
ten-token window; forty characters overflow it with the descriptive
error; replicated contents estimated at exactly 75000 and 900000 tokens
are accepted and rejected against a one million token window. -/
theorem validate_token_limit_scales_with_window_witness :
    validate_token_limit 10 "abcd" = Except.ok () ∧
      validate_token_limit 10 "xxxxxxxxxxxxxxxxxxxxxxxxxxxxxxxxxxxxxxxx" =
        Except.error (tooLargeMessage 10 8) ∧
      validate_token_limit 1000000 (String.replicate 300000 'x') =
        Except.ok () ∧
      validate_token_limit 1000000 (String.replicate 3600000 'x') =
        Except.error (tooLargeMessage 900000 800000) := by
  refine ⟨?_, ?_, ?_, ?_⟩
  · exact (validate_token_limit_scales_with_window 10 "abcd").1 (by decide)
  · have h := (validate_token_limit_scales_with_window 10
      "xxxxxxxxxxxxxxxxxxxxxxxxxxxxxxxxxxxxxxxx").2.1 (by decide)
    rw [h]
    rw [show estimate_tokens "xxxxxxxxxxxxxxxxxxxxxxxxxxxxxxxxxxxxxxxx" = 10
        by decide,
      show (10 : Nat) * 8 / 10 = 8 by decide]
  · have h75 : estimate_tokens (String.replicate 300000 'x') = 75000 := by
      rw [estimate_tokens_eq, String.length_replicate]
    exact (validate_token_limit_scales_with_window 1000000
      (String.replicate 300000 'x')).2.2.1 h75
  · have h900 : estimate_tokens (String.replicate 3600000 'x') = 900000 := by
      rw [estimate_tokens_eq, String.length_replicate]
    exact (validate_token_limit_scales_with_window 1000000
      (String.replicate 3600000 'x')).2.2.2 h900

/-- C1: when the requested identifier resolves to no provider, or the
restriction table rejects it, the resolver substitutes the configured
fallback identifier with a non-empty warning naming the original request
and the replacement, and it only fails — with the no-model-available hard
error — when the fallback itself resolves to no provider. -/
theorem resolver_fallback_substitution (rs : Restrictions)
    (registry : String → Option ProviderHit) (fallback requested : String)
    (hfail : registry (pyLower (pyStrip requested)) = none ∨
      ∃ hit, registry (pyLower (pyStrip requested)) = some hit ∧
        is_allowed rs hit.provider hit.canonical
          (some (pyLower (pyStrip requested))) = false) :
    (∀ hitF, registry (pyLower (pyStrip fallback)) = some hitF →
        resolve_model rs registry fallback requested =
          Except.ok
            { requested := requested
              actual_model_name := fallback
              provider := hitF.provider
              fallback_warning := fallbackWarningMessage requested fallback
              capabilities := hitF.caps } ∧
          fallbackWarningMessage requested fallback ≠ "") ∧
      (registry (pyLower (pyStrip fallback)) = none →
        resolve_model rs registry fallback requested =
          Except.error (noModelAvailableMessage requested)) := by
  have hprimary : resolvePrimary rs registry (pyLower (pyStrip requested)) = none := by
    unfold resolvePrimary
    rcases hfail with h | ⟨hit, h1, h2⟩
    · simp [h]
    · simp [h1, h2]
  have hwarn : fallbackWarningMessage requested fallback ≠ "" := by
    intro hcontra
    unfold fallbackWarningMessage at hcontra
    have hlen := congrArg String.length hcontra
    rw [String.length_append, String.length_append, String.length_append] at hlen
    have hpos : 0 < ("Requested model " : String).length := by decide
    have hz : ("" : String).length = 0 := by decide
    omega
  constructor
  · intro hitF hreg
    refine ⟨?_, hwarn⟩
    simp only [resolve_model, hprimary, hreg]
  · intro hreg
    simp only [resolve_model, hprimary, hreg]

/-- Witness for C1 at a concrete input: the alias flash resolves to no
provider of a registry serving only gpt-5, so resolution falls back to
the configured gpt-5 with the warning recorded. -/
theorem resolver_fallback_substitution_witness :
    resolve_model productionRestrictions registryGpt5 "gpt-5" "flash" =
      Except.ok
        { requested := "flash"
          actual_model_name := "gpt-5"
          provider := ProviderType.OPENAI
          fallback_warning := fallbackWarningMessage "flash" "gpt-5"
          capabilities := ⟨400000⟩ } :=
  ((resolver_fallback_substitution productionRestrictions registryGpt5 "gpt-5"
      "flash" (Or.inl (by decide))).1
    ⟨ProviderType.OPENAI, "gpt-5", ⟨400000⟩⟩ (by decide)).1

end ZenMCP
